import Mathlib

/-!
# Verification of the GF2 logic-simulator compiler front end

Shallow embedding of `src/scanner.py` and `src/parse.py` (the scanner and
parser of the logic-simulator netlist compiler), with theorems settling the
frozen claims about them.

Modelling conventions:
* Python strings are Lean `String`s; file content is the raw string, and the
  iteration `for line in f` is modelled by `pyLines` (split keeping the
  terminating newline, as Python file iteration does).
* Python exceptions are modelled with `Except PyExc`; a function that can
  raise returns `Except PyExc α`.
* The scanner's generator `symbol_gen` is modelled as the eagerly computed
  list of the symbols it yields (`scan`); `get_symbol`, i.e. `next` on the
  generator, is the explicit cursor `get_symbol` popping that list, raising
  `StopIteration` when the generator is exhausted.
* `names.py` is not part of `src/`; the Name Table is modelled from the spec
  (see `Names.lookupOne`).
-/

namespace GF2

/-- Python exception values raised by the modelled code. -/
inductive PyExc where
  | stopIteration : PyExc
  | attributeError : String → PyExc
  | indexError : PyExc
  | runtimeError : String → PyExc
  deriving DecidableEq, Repr

/-- Python ASCII lowercasing of one character, as `str.lower` does on the
ASCII identifiers and punctuation this language uses. -/
def pyLowerChar (c : Char) : Char :=
  if 'A' ≤ c ∧ c ≤ 'Z' then Char.ofNat (c.toNat + 32) else c

/-- Python `str.lower` (ASCII fragment). -/
def pyLower (s : String) : String :=
  String.mk (s.toList.map pyLowerChar)

/-- The characters Python `str.strip` removes by default. -/
def pySpace (c : Char) : Bool :=
  c = ' ' ∨ c = '\t' ∨ c = '\n' ∨ c = '\r' ∨ c = '\x0b' ∨ c = '\x0c'

/-- Python `str.strip`: drop leading and trailing whitespace. -/
def pyStrip (s : String) : String :=
  String.mk (((s.toList.dropWhile pySpace).reverse.dropWhile pySpace).reverse)

/-- Python `str.isdigit` (ASCII fragment): nonempty and all digits. -/
def pyIsDigit (s : String) : Bool :=
  decide (s.toList ≠ []) && s.toList.all (fun c => '0' ≤ c && c ≤ '9')

/-- Helper for `pyLines`: walk the characters, cutting after each newline.
`acc` holds the current line's characters in reverse. -/
def pyLinesAux : List Char → List Char → List String
  | [], [] => []
  | [], acc => [String.mk acc.reverse]
  | c :: cs, acc =>
      if c = '\n' then String.mk (c :: acc).reverse :: pyLinesAux cs []
      else pyLinesAux cs (c :: acc)

/-- Python file iteration `for line in f`: the lines of the content, each
keeping its terminating newline; a final fragment without a newline is a
line too; empty content yields no lines. -/
def pyLines (s : String) : List String :=
  pyLinesAux s.toList []

/-- The single-character delimiters of the scanner's split regex
`(\.|,|\(|\)| +|=)` in scanner.py line 98. -/
def splitPunct (c : Char) : Bool :=
  c = '.' ∨ c = ',' ∨ c = '(' ∨ c = ')' ∨ c = '='

/-- Helper for `pySplit`. Mirrors how `re.split` with a capturing group
returns the pieces between delimiter matches (possibly empty) interleaved
with the delimiter matches themselves. `acc` holds the current piece in
reverse; `inRun` says whether `acc` is a space run being matched by the
greedy ` +` alternative (which extends across consecutive spaces) rather
than ordinary text. -/
def pySplitAux : List Char → Bool → List Char → List String
  | [], false, acc => [String.mk acc.reverse]
  | [], true, run => [String.mk run.reverse, ""]
  | c :: cs, false, acc =>
      if splitPunct c then
        String.mk acc.reverse :: String.mk [c] :: pySplitAux cs false []
      else if c = ' ' then
        String.mk acc.reverse :: pySplitAux cs true [c]
      else
        pySplitAux cs false (c :: acc)
  | c :: cs, true, run =>
      if c = ' ' then
        pySplitAux cs true (c :: run)
      else if splitPunct c then
        String.mk run.reverse :: "" :: String.mk [c] :: pySplitAux cs false []
      else
        String.mk run.reverse :: pySplitAux cs false [c]

/-- The scanner's tokenization of one line:
`re.split(r"(\.|,|\(|\)| +|=)", line)` from scanner.py line 98. -/
def pySplit (line : String) : List String :=
  pySplitAux line.toList false []

/-- Result of looking a string up in a list, leftmost index. Used to model
interning: `none` when the string is not yet in the table. -/
def lookupIdx : List String → String → Option Nat
  | [], _ => none
  | t :: ts, s => if t = s then some 0 else (lookupIdx ts s).map (· + 1)

namespace Names

/-- Modelled from the spec: `names.py` is not in `src/`. Per spec 4.1 the
Name Table's `lookup(strings)` interns each string, returning its ID and
creating a new one if unseen, and IDs are never reused or reassigned. The
table is the list of interned strings; a string's ID is its index. This is
`lookup` on a one-element list, as the scanner calls it
(`[id] = self.__names.lookup([s])`, scanner.py line 103). -/
def lookupOne (table : List String) (s : String) : List String × Nat :=
  match lookupIdx table s with
  | some i => (table, i)
  | none => (table ++ [s], table.length)

/-- Modelled from the spec: per spec 4.1, `get_string(Name)` is the left
inverse of `lookup`; absent IDs have no string. -/
def get_name_string (table : List String) (i : Nat) : Option String :=
  table.get? i

end Names

/-- The `Symbol` class of scanner.py (lines 15-31): instance attributes
`type`, `id`, `loc`, each defaulting to `None`. Every construction in
`symbol_gen` passes `type`, so it is modelled as a plain `Nat`; `id` and
`loc` are omitted at some construction sites and stay `Option`. -/
structure Symbol where
  type : Nat
  id : Option Nat := none
  loc : Option Nat := none
  deriving DecidableEq, Repr

/-- The `Symbol` class defines no class-level attributes: `type`, `id` and
`loc` are set on instances in `__init__` only, and the symbol-type constants
live on `Scanner`. Any class-attribute access `Symbol.X` (as parse.py does
with `Symbol.NL`, `Symbol.EOF`, `Symbol.NAME`, `Symbol.DEF`, ...) therefore
raises `AttributeError`. -/
def Symbol.classAttr (a : String) : Except PyExc Nat :=
  .error (.attributeError a)

/-- Instances of `Symbol` carry only `type`, `id` and `loc`; reading the
attribute `data` (as parse.py's device-definition branch does with
`sym.data` and `first.data`) raises `AttributeError`. -/
def Symbol.data (_s : Symbol) : Except PyExc Int :=
  .error (.attributeError "data")

namespace Scanner

/-- Symbol-type constants on the `Scanner` class, scanner.py lines 55-77. -/
def CLOCK : Nat := 0
def SWITCH : Nat := 1
def AND : Nat := 2
def OR : Nat := 3
def NAND : Nat := 4
def NOR : Nat := 5
def DTYPE : Nat := 6
def XOR : Nat := 7
def DOT : Nat := 8
def COMMA : Nat := 9
def OPEN : Nat := 10
def CLOSE : Nat := 11
def WHITESPACE : Nat := 12
def EQUALS : Nat := 13
def NAME : Nat := 14
def NUMBER : Nat := 15
def INVALID : Nat := 16
def EOL : Nat := 17
def EOF : Nat := 18
def MONITOR : Nat := 19
def SIGGEN : Nat := 20
def RC : Nat := 21

/-- `Scanner.get_symbol_type` (scanner.py lines 133-184): the if-chain
classifying one already lowercased, stripped word. -/
def get_symbol_type (w : String) : Nat :=
  if w = "clk" then CLOCK
  else if w = "sig" then SIGGEN
  else if w = "rc" then RC
  else if w = "sw" then SWITCH
  else if w = "and" then AND
  else if w = "or" then OR
  else if w = "nand" then NAND
  else if w = "nor" then NOR
  else if w = "dtype" then DTYPE
  else if w = "xor" then XOR
  else if w = "." then DOT
  else if w = "," then COMMA
  else if w = "(" then OPEN
  else if w = ")" then CLOSE
  else if w = " " then WHITESPACE
  else if w = "=" then EQUALS
  else if w = "" then EOL
  else if w = "monitor" then MONITOR
  else if pyIsDigit w then NUMBER
  else NAME

/-- The body of `symbol_gen`'s inner loop for one split piece `w` at column
`loc` (scanner.py lines 99-106): lowercase and strip; an empty result yields
no symbol, otherwise classify the word, intern it, and yield the symbol. -/
def scanWord (names : List String) (loc : Nat) (w : String) :
    List String × List Symbol :=
  let s := pyStrip (pyLower w)
  if s = "" then (names, [])
  else
    let type := get_symbol_type s
    let (names2, id) := Names.lookupOne names s
    (names2, [{ type := type, id := some id, loc := some loc }])

/-- `symbol_gen`'s inner loop over one line's split pieces (scanner.py lines
97-108): `loc` advances by the raw length of every piece, and after the
pieces an EOL symbol is yielded at the final `loc`. -/
def scanLine (names : List String) (loc : Nat) (ws : List String) :
    List String × List Symbol :=
  match ws with
  | [] => (names, [{ type := EOL, loc := some loc }])
  | w :: rest =>
      let (names2, syms) := scanWord names loc w
      let (names3, syms2) := scanLine names2 (loc + w.length) rest
      (names3, syms ++ syms2)

/-- `symbol_gen`'s outer loop over the file's lines (scanner.py lines
96-109): each line's symbols in order, then a single terminal EOF symbol. -/
def scanFile (names : List String) (lines : List String) :
    List String × List Symbol :=
  match lines with
  | [] => (names, [{ type := EOF }])
  | l :: rest =>
      let (names2, syms) := scanLine names 0 (pySplit l)
      let (names3, syms2) := scanFile names2 rest
      (names3, syms ++ syms2)

/-- The whole symbol sequence `symbol_gen` yields for a file with the given
content, together with the final name table. -/
def scan (names : List String) (content : String) :
    List String × List Symbol :=
  scanFile names (pyLines content)

/-- `Scanner.get_symbol` (scanner.py lines 186-194): `next` on the
generator, modelled as popping the remaining symbol list; an exhausted
generator raises `StopIteration`. -/
def get_symbol : List Symbol → Except PyExc (Symbol × List Symbol)
  | [] => .error .stopIteration
  | s :: rest => .ok (s, rest)

/-- Helper for `get_line`: the loop `for _ in range(number): line = next(f)`
(scanner.py lines 127-129), counting down the remaining iterations and
carrying the last line read; `next` on an exhausted file raises
`StopIteration`. -/
def get_lineLoop : Nat → List String → Option String →
    Except PyExc (Option String)
  | 0, _, line => .ok line
  | k + 1, ls, _ =>
      match ls with
      | [] => .error .stopIteration
      | l :: rest => get_lineLoop k rest (some l)

/-- `Scanner.get_line` (scanner.py lines 114-131): advance `number` lines
from the start of the file, then return the last line read, stripped.
`number = 0` leaves `line = None` and `None.strip()` raises
`AttributeError`; `number` beyond the last line raises `StopIteration` from
`next(f)`. -/
def get_line (content : String) (number : Nat) : Except PyExc String := do
  let line ← get_lineLoop number (pyLines content) none
  match line with
  | none => .error (.attributeError "strip")
  | some l => .ok (pyStrip l)

end Scanner

namespace Devices

/-- Modelled from the spec: `devices.py` is not in `src/`. The device-kind
constants `self._devices.AND`, `.NAND`, `.OR`, `.NOR`, `.XOR`, `.CLOCK`,
`.SWITCH` that parse.py passes to the maker calls; spec 3 fixes the closed
kind set, the concrete numbering is arbitrary. -/
def AND : Nat := 0
def NAND : Nat := 1
def OR : Nat := 2
def NOR : Nat := 3
def XOR : Nat := 4
def CLOCK : Nat := 5
def SWITCH : Nat := 6
def DTYPE : Nat := 7

end Devices

/-- The mutable collaborators `parse_network` drives (`devices.py`,
`network.py`, `monitors.py` are not in `src/`): the name table plus logs of
the construction calls the parser makes. Modelled from the spec, which
needs only that each call registers its device or connection (spec 4.4,
4.5); the failure conditions of those calls are not modelled because
`parse_network` raises before any of them can run. -/
structure Env where
  names : List String
  gates : List (Nat × Nat × Int) := []
  clocks : List (Nat × Nat × Int) := []
  switches : List (Nat × Nat × Bool) := []
  dtypes : List Nat := []
  connections : List ((Option Nat × Option Nat) × (Option Nat × Option Nat)) := []
  deriving DecidableEq, Repr

namespace Env

/-- Modelled from the spec: `names.py` is not in `src/`. Spec 4.1's
`get_string` on the symbol's optional name ID. -/
def getNameString (e : Env) (i : Option Nat) : Option String :=
  i.bind (fun j => Names.get_name_string e.names j)

/-- Modelled from the spec: `devices.py` is not in `src/`. Spec 4.3's
name-to-pin resolution: a plain NAME resolves to the device with the default
pin `none`; NAME.PORT resolves to the named pin. Device and port are
identified by their interned name IDs. -/
def get_signal_ids (e : Env) (s : Option String) : Option Nat × Option Nat :=
  match s with
  | none => (none, none)
  | some str =>
      match str.splitOn "." with
      | [name, port] => (lookupIdx e.names name, lookupIdx e.names port)
      | _ => (lookupIdx e.names str, none)

/-- Modelled from the spec: `network.py` is not in `src/`. Spec 4.5's
`make_connection` records the directed edge between the two endpoints. -/
def make_connection (e : Env) (a b c d : Option Nat) : Env :=
  { e with connections := e.connections ++ [((a, b), (c, d))] }

/-- Modelled from the spec: `devices.py` is not in `src/`. Spec 4.4's
`make_gate` registers a gate with its kind and input count. -/
def make_gate (e : Env) (id kind : Nat) (n : Int) : Env :=
  { e with gates := e.gates ++ [(id, kind, n)] }

/-- Modelled from the spec: `devices.py` is not in `src/`. Spec 4.4's
`make_clock` registers a clock with its half-period (parse.py also passes
the kind constant). -/
def make_clock (e : Env) (id kind : Nat) (half : Int) : Env :=
  { e with clocks := e.clocks ++ [(id, kind, half)] }

/-- Modelled from the spec: `devices.py` is not in `src/`. Spec 4.4's
`make_switch` registers a switch with its initial level (parse.py also
passes the kind constant). -/
def make_switch (e : Env) (id kind : Nat) (level : Bool) : Env :=
  { e with switches := e.switches ++ [(id, kind, level)] }

/-- Modelled from the spec: `devices.py` is not in `src/`. Spec 4.4's
`make_d_type` registers a D-type flip-flop. -/
def make_d_type (e : Env) (id : Nat) : Env :=
  { e with dtypes := e.dtypes ++ [id] }

end Env

/-- Python list indexing `l[i]`, raising `IndexError` when out of range
(parse.py line 63 does `symbols[0]` on a possibly empty list). -/
def pyIndex (l : List Symbol) (i : Nat) : Except PyExc Symbol :=
  match l.get? i with
  | some x => .ok x
  | none => .error .indexError

namespace Parser

/-- The inner `while True` loop of `parse_network` (parse.py lines 54-61):
pull symbols from the scanner until the statement-boundary test fires. The
call to `get_symbol` is inlined (an exhausted generator raises
`StopIteration`). The boundary test evaluates the class attributes
`Symbol.NL` then `Symbol.EOF`; neither exists on `Symbol`, so evaluating
`Symbol.NL` raises `AttributeError`. On break the source sets
`EOF_flag = True` in the end-of-line and end-of-file cases alike, so the
flag is not returned: it is `True` whenever this loop returns normally. -/
def readStatement : List Symbol → List Symbol →
    Except PyExc (List Symbol × List Symbol)
  | [], _ => .error .stopIteration
  | sym :: stream2, acc => do
      let nl ← Symbol.classAttr "NL"
      let eofC ← Symbol.classAttr "EOF"
      if sym.type = nl ∨ sym.type = eofC then
        .ok (acc, stream2)
      else
        readStatement stream2 (acc ++ [sym])

/-- The `for sym in symbols[1:]` loop of the device-definition branch
(parse.py lines 84-115), threading `expecting_comma`, the device counter
and the registry. Each dispatch reads a class attribute of `Symbol`
(`Symbol.COMMA`, `Symbol.AND`, ...) that does not exist, and the maker
calls read the nonexistent instance attribute `data`; attribute accesses
follow the source's evaluation order. Note the source never sets
`expecting_comma` to `True`. -/
def defLoop (first : Symbol) : List Symbol → Env → Nat → Bool →
    Except PyExc (Env × Nat × Bool)
  | [], env, counter, expecting => .ok (env, counter, expecting)
  | sym :: rest, env, counter, expecting =>
      if expecting then do
        let commaC ← Symbol.classAttr "COMMA"
        if sym.type ≠ commaC then .error (.runtimeError "Expecting comma")
        else defLoop first rest env counter false
      else do
        let andC ← Symbol.classAttr "AND"
        if first.type = andC then do
          let d ← sym.data
          defLoop first rest (env.make_gate counter Devices.AND d) (counter + 1) expecting
        else do
        let nandC ← Symbol.classAttr "NAND"
        if first.type = nandC then do
          let d ← sym.data
          defLoop first rest (env.make_gate counter Devices.NAND d) (counter + 1) expecting
        else do
        let orC ← Symbol.classAttr "OR"
        if first.type = orC then do
          let d ← sym.data
          defLoop first rest (env.make_gate counter Devices.OR d) (counter + 1) expecting
        else do
        let norC ← Symbol.classAttr "NOR"
        if first.type = norC then do
          let d ← sym.data
          defLoop first rest (env.make_gate counter Devices.NOR d) (counter + 1) expecting
        else do
        let xorC ← Symbol.classAttr "XOR"
        if first.type = xorC then do
          let fd ← first.data
          if fd ≠ 2 then .error (.runtimeError "")
          else defLoop first rest (env.make_gate counter Devices.XOR 2) (counter + 1) expecting
        else do
        let clkC ← Symbol.classAttr "CLK"
        if first.type = clkC then do
          let fd ← first.data
          if fd ≤ 0 then .error (.runtimeError "")
          else defLoop first rest (env.make_clock counter Devices.CLOCK fd) (counter + 1) expecting
        else do
        let swC ← Symbol.classAttr "SW"
        if first.type = swC then do
          let fd ← first.data
          defLoop first rest (env.make_switch counter Devices.SWITCH (fd ≠ 0)) (counter + 1) expecting
        else do
        let dtypeC ← Symbol.classAttr "DTYPE"
        if first.type = dtypeC then
          defLoop first rest (env.make_d_type counter) (counter + 1) expecting
        else .error (.runtimeError "")

/-- The statement-processing body of `parse_network` (parse.py lines
63-119) for one collected statement. Every branch guard reads a class
attribute of `Symbol` that does not exist (`Symbol.NAME`, `Symbol.DEF`,
`Symbol.MONITOR`), so none of the branches is reachable; they are embedded
as written, in the source's evaluation order. The `MONITOR` branch is
`pass`, and an unmatched first symbol falls through the `if`/`elif` chain
doing nothing. -/
def processStatement (env : Env) (symbols : List Symbol) (counter : Nat) :
    Except PyExc (Env × Nat) := do
  let first ← pyIndex symbols 0
  let nameC ← Symbol.classAttr "NAME"
  if first.type = nameC then do
    if symbols.length ≠ 3 then .error (.runtimeError "")
    else do
    let s1 ← pyIndex symbols 1
    let eqC ← Symbol.classAttr "EQUALS"
    if s1.type ≠ eqC then .error (.runtimeError "")
    else do
    let s2 ← pyIndex symbols 2
    if s2.type ≠ nameC then .error (.runtimeError "")
    else do
    let fids := env.get_signal_ids (env.getNameString first.id)
    let sids := env.get_signal_ids (env.getNameString s2.id)
    .ok (env.make_connection fids.1 fids.2 sids.1 sids.2, counter)
  else do
    let defC ← Symbol.classAttr "DEF"
    if first.type = defC then do
      let (env2, counter2, expecting) ← defLoop first (symbols.drop 1) env counter false
      if !expecting then .error (.runtimeError "end of line has to expect comma")
      else .ok (env2, counter2)
    else do
      let monC ← Symbol.classAttr "MONITOR"
      if first.type = monC then .ok (env, counter)
      else .ok (env, counter)

/-- `Parser.parse_network` (parse.py lines 47-124) on a file with the given
content, starting the scanner's name table from `names`. Because the inner
while's break sets `EOF_flag = True` in both its cases (parse.py lines
58-60), the outer `while not EOF_flag` body runs exactly once, after which
the source's `return True` (parse.py line 124) is reached. -/
def parse_network (names : List String) (content : String) :
    Except PyExc Bool := do
  let (table, stream) := Scanner.scan names content
  let (symbols, _rest) ← readStatement stream []
  let env : Env := { names := table }
  let _ ← processStatement env symbols 0
  .ok true

end Parser

/-- The exact strings matched by the if-chain of `Scanner.get_symbol_type`
before its `isdigit` test: the reserved words, the punctuation marks, the
single space, and the empty string. A word equal to none of these and not
all digits falls through to the generic `NAME` case. -/
def ruleStrings : List String :=
  ["clk", "sig", "rc", "sw", "and", "or", "nand", "nor", "dtype", "xor",
   ".", ",", "(", ")", " ", "=", "", "monitor"]

/-- A word character of the regex class backslash-w (ASCII): letter, digit
or underscore. -/
def wordChar (c : Char) : Bool :=
  c.isAlpha ∨ c.isDigit ∨ c = '_'

/-- Helper for `specBareIdent`: after the leading character, word
characters, optionally ending in parenthesized digits or a dot suffix. -/
def identRest : List Char → Bool
  | [] => true
  | '(' :: cs =>
      decide (cs.takeWhile Char.isDigit ≠ []) &&
        decide (cs.dropWhile Char.isDigit = [')'])
  | '.' :: cs => decide (cs ≠ []) && cs.all wordChar
  | c :: cs => wordChar c && identRest cs

/-- Stated from the spec's words, for comparison with the code (spec 4.2):
a syntactically valid bare identifier matches `[A-Za-z_]` followed by word
characters, optionally with parenthesized digits or a dot suffix. -/
def specBareIdent (s : String) : Bool :=
  match s.toList with
  | [] => false
  | c :: cs => (c.isAlpha ∨ c = '_') && identRest cs

/-- The per-symbol invariant of the scanner's output relative to a name
table: exactly the EOL and EOF symbols carry no name ID, and any carried ID
was obtained by interning a nonempty (lowercased, stripped) token whose
classification is the symbol's type. -/
def goodSym (table : List String) (sym : Symbol) : Prop :=
  (sym.id = none ↔ (sym.type = Scanner.EOL ∨ sym.type = Scanner.EOF)) ∧
  (∀ i, sym.id = some i → ∃ s, s ≠ "" ∧ table.get? i = some s ∧
    sym.type = Scanner.get_symbol_type s)

/-! ## Helper lemmas -/

/-- The statement-collection loop fails on its first symbol: the boundary
test evaluates `Symbol.NL`, which raises `AttributeError`. -/
theorem readStatement_cons (s : Symbol) (t acc : List Symbol) :
    Parser.readStatement (s :: t) acc =
      .error (.attributeError "NL") := rfl

/-- The scanner always yields at least one symbol (at minimum the terminal
EOF). -/
theorem scanFile_snd_ne_nil (names : List String) (ls : List String) :
    (Scanner.scanFile names ls).2 ≠ [] := by
  induction ls generalizing names with
  | nil => simp [Scanner.scanFile]
  | cons l rest ih =>
      have h : (Scanner.scanFile names (l :: rest)).2 =
          (Scanner.scanLine names 0 (pySplit l)).2 ++
            (Scanner.scanFile (Scanner.scanLine names 0 (pySplit l)).1 rest).2 := rfl
      rw [h]
      intro hc
      exact ih _ (List.append_eq_nil.mp hc).2

/-! ## Claim C1 -/

/-- Claim C1: the claim says `parse_network` returns a pair of an overall
success flag and the complete list of collected errors, with success true
only if zero errors were collected and the semantic invariants hold. The
code does neither: on any input file, already on the empty file shown here,
`parse_network` raises `AttributeError` at its statement-boundary test
(`Symbol.NL` does not exist), collects no errors, and the `return True` it
would otherwise reach returns a bare boolean with no error list. -/
theorem claim1_parse_network_raises :
    Parser.parse_network [] "" = .error (.attributeError "NL") := rfl

/-! ## Claim C2 -/

/-- Claim C2: the claim says the parser reports an error for a malformed
statement, discards symbols up to the next EOL and resumes, collecting
every error. On the file `"x\n"`, whose single statement is malformed (a
lone name), the code instead raises `AttributeError` at the
statement-boundary test before any recovery; its malformed-statement paths
raise bare `RuntimeError` rather than recording an error and resuming. -/
theorem claim2_no_error_recovery :
    Parser.parse_network [] "x\n" = .error (.attributeError "NL") := rfl

/-! ## Claim C3 -/

/-- Claim C3: on every input file, `parse_network` raises `AttributeError`
before returning, because its statement-boundary test reads `Symbol.NL`
(and `Symbol.EOF`), attributes the `Symbol` class does not define — the
symbol-type constants live on `Scanner` — so `parse_network` never
completes normally on any input. -/
theorem claim3_parse_network_always_attribute_error
    (names : List String) (content : String) :
    Parser.parse_network names content = .error (.attributeError "NL") := by
  obtain ⟨s, t, hst⟩ :=
    List.exists_cons_of_ne_nil (scanFile_snd_ne_nil names (pyLines content))
  show (Parser.readStatement (Scanner.scanFile names (pyLines content)).2 []).bind
      _ = _
  rw [hst]
  rfl

/-! ## Claim C4 -/

/-- Claim C4: the claim says a connection statement with a dotted signal
such as `G1.I1 = SW1` is accepted and each signal resolved to a
(device, port) pair before the connection is made. On exactly that input
the code raises `AttributeError` at the statement-boundary test, so no
statement is ever accepted and no connection is ever made; moreover the
connection branch it would reach requires exactly three symbols
`NAME = NAME`, while the dotted form lexes as five. -/
theorem claim4_connection_statement_unreachable :
    Parser.parse_network [] "g1.i1 = sw1\n" = .error (.attributeError "NL") := rfl

/-! ## Claim C5 -/

/-- Claim C5: the claim says `MONITOR <signal>...` registers each listed
signal with the Monitor Set. On the monitor statement shown here the code
raises `AttributeError` at the statement-boundary test; and the `MONITOR`
branch of the statement processor it would reach is `pass`, registering
nothing. -/
theorem claim5_monitor_statement_unreachable :
    Parser.parse_network [] "monitor g1\n" = .error (.attributeError "NL") := rfl

/-- Characterization of the fall-through of `get_symbol_type`: a word equal
to none of the strings the if-chain tests is classified NUMBER when it is
all digits and NAME otherwise. -/
theorem get_symbol_type_of_not_mem (w : String) (hmem : w ∉ ruleStrings) :
    Scanner.get_symbol_type w =
      if pyIsDigit w then Scanner.NUMBER else Scanner.NAME := by
  simp only [ruleStrings, List.mem_cons, List.not_mem_nil, or_false,
    not_or] at hmem
  obtain ⟨h1, h2, h3, h4, h5, h6, h7, h8, h9, h10, h11, h12, h13, h14, h15,
    h16, h17, h18⟩ := hmem
  unfold Scanner.get_symbol_type
  rw [if_neg h1, if_neg h2, if_neg h3, if_neg h4, if_neg h5, if_neg h6,
      if_neg h7, if_neg h8, if_neg h9, if_neg h10, if_neg h11, if_neg h12,
      if_neg h13, if_neg h14, if_neg h15, if_neg h16, if_neg h17, if_neg h18]

/-! ## Claim C6 -/

/-- `get_symbol_type` never returns the EOF code: EOF symbols are produced
only by the final yield of `symbol_gen`. -/
theorem get_symbol_type_ne_EOF (w : String) :
    Scanner.get_symbol_type w ≠ Scanner.EOF := by
  by_cases hm : w ∈ ruleStrings
  · fin_cases hm <;> decide
  · rw [get_symbol_type_of_not_mem w hm]
    cases hpd : pyIsDigit w <;> decide

/-- No symbol yielded for a line (word symbols and the line's EOL) has type
EOF. -/
theorem scanLine_type_ne_EOF (names : List String) (loc : Nat)
    (ws : List String) :
    ∀ sym ∈ (Scanner.scanLine names loc ws).2, sym.type ≠ Scanner.EOF := by
  induction ws generalizing names loc with
  | nil =>
      intro sym h
      simp [Scanner.scanLine] at h
      subst h
      show Scanner.EOL ≠ Scanner.EOF
      decide
  | cons w rest ih =>
      intro sym h
      have hd : (Scanner.scanLine names loc (w :: rest)).2 =
          (Scanner.scanWord names loc w).2 ++
            (Scanner.scanLine (Scanner.scanWord names loc w).1
              (loc + w.length) rest).2 := rfl
      rw [hd] at h
      rcases List.mem_append.mp h with h1 | h2
      · by_cases hs : pyStrip (pyLower w) = ""
        · simp [Scanner.scanWord, hs] at h1
        · simp [Scanner.scanWord, hs] at h1
          rw [h1]
          exact get_symbol_type_ne_EOF _
      · exact ih _ _ _ h2

/-- The symbol sequence contains the terminal EOF symbol exactly once, as
its last element. -/
theorem scanFile_eof_structure (names : List String) (ls : List String) :
    (Scanner.scanFile names ls).2.filter
        (fun s => s.type == Scanner.EOF) = [{ type := Scanner.EOF }] ∧
    (Scanner.scanFile names ls).2.getLast? = some { type := Scanner.EOF } := by
  induction ls generalizing names with
  | nil => exact ⟨rfl, rfl⟩
  | cons l rest ih =>
      have hd : (Scanner.scanFile names (l :: rest)).2 =
          (Scanner.scanLine names 0 (pySplit l)).2 ++
            (Scanner.scanFile (Scanner.scanLine names 0 (pySplit l)).1
              rest).2 := rfl
      constructor
      · rw [hd, List.filter_append]
        have hnil : (Scanner.scanLine names 0 (pySplit l)).2.filter
            (fun s => s.type == Scanner.EOF) = [] := by
          rw [List.filter_eq_nil_iff]
          intro a ha
          simpa using scanLine_type_ne_EOF names 0 (pySplit l) a ha
        rw [hnil, List.nil_append]
        exact (ih _).1
      · rw [hd, List.getLast?_append_of_ne_nil _ (scanFile_snd_ne_nil _ _)]
        exact (ih _).2

/-- Claim C6 (amended): the terminal EOF symbol is produced exactly once,
as the last symbol of the sequence; once the generator is exhausted,
`get_symbol` raises `StopIteration` rather than repeating EOF. -/
theorem claim6_eof_once_then_stop (names : List String) (content : String) :
    (Scanner.scan names content).2.filter
        (fun s => s.type == Scanner.EOF) = [{ type := Scanner.EOF }] ∧
    (Scanner.scan names content).2.getLast? = some { type := Scanner.EOF } ∧
    Scanner.get_symbol [] = .error PyExc.stopIteration :=
  ⟨(scanFile_eof_structure names (pyLines content)).1,
   (scanFile_eof_structure names (pyLines content)).2, rfl⟩

/-- Claim C6, counterexample to the claim as stated: on the empty file the
first `get_symbol` returns the terminal EOF symbol, and the next call —
after end of input is reached — raises `StopIteration` instead of
returning EOF again; the EOF symbol does not repeat indefinitely. -/
theorem claim6_eof_not_repeated_cex :
    Scanner.get_symbol (Scanner.scan [] "").2 =
      .ok ({ type := Scanner.EOF }, []) ∧
    Scanner.get_symbol [] = .error PyExc.stopIteration :=
  ⟨rfl, rfl⟩

/-! ## Claim C7 -/

/-- A word that matches none of the if-chain's strings and is not all
digits is classified as a generic NAME. -/
theorem get_symbol_type_eq_NAME (s : String) (hmem : s ∉ ruleStrings)
    (hdig : pyIsDigit s = false) :
    Scanner.get_symbol_type s = Scanner.NAME := by
  rw [get_symbol_type_of_not_mem s hmem, if_neg (by simp [hdig])]

/-- `get_symbol_type` never returns the `INVALID` code: the constant is
declared on `Scanner` but no branch produces it. -/
theorem get_symbol_type_ne_INVALID (w : String) :
    Scanner.get_symbol_type w ≠ Scanner.INVALID := by
  by_cases hm : w ∈ ruleStrings
  · fin_cases hm <;> decide
  · rw [get_symbol_type_of_not_mem w hm]
    cases hpd : pyIsDigit w <;> decide

/-- Claim C7 (amended): the scanner has no classification failure. A token
that matches no lexical rule — regardless of whether it is a syntactically
valid bare identifier — is classified as a generic NAME, and the `INVALID`
code is never produced. -/
theorem claim7_unmatched_token_classified_name :
    (∀ s, s ∉ ruleStrings → pyIsDigit s = false →
        Scanner.get_symbol_type s = Scanner.NAME) ∧
    (∀ s, Scanner.get_symbol_type s ≠ Scanner.INVALID) :=
  ⟨get_symbol_type_eq_NAME, get_symbol_type_ne_INVALID⟩

/-- Claim C7, witness: the amended theorem applied to the concrete token
`"@"`, which matches no rule and is not all digits. -/
theorem claim7_unmatched_token_classified_name_witness :
    Scanner.get_symbol_type "@" = Scanner.NAME ∧
    Scanner.get_symbol_type "@" ≠ Scanner.INVALID :=
  ⟨claim7_unmatched_token_classified_name.1 "@" (by decide) (by decide),
   claim7_unmatched_token_classified_name.2 "@"⟩

/-- Claim C7, counterexample to the claim as stated: the token `"@"`
matches no lexical rule and is not a syntactically valid bare identifier
(per the spec's own `[A-Za-z_]`-word shape, `specBareIdent`), yet the
scanner does not fail with a classification error on the file `"@\n"`: it
classifies the token as a generic NAME and scans the file completely. -/
theorem claim7_unmatched_token_is_name_cex :
    specBareIdent "@" = false ∧
    Scanner.get_symbol_type "@" = Scanner.NAME ∧
    (Scanner.scan [] "@\n").2.map Symbol.type =
      [Scanner.NAME, Scanner.EOL, Scanner.EOF] :=
  ⟨rfl, rfl, rfl⟩

/-! ## Claim C8 -/

/-- A word consisting solely of digits is classified NUMBER. -/
theorem get_symbol_type_of_digit (s : String) (hdig : pyIsDigit s = true) :
    Scanner.get_symbol_type s = Scanner.NUMBER := by
  by_cases hm : s ∈ ruleStrings
  · fin_cases hm <;> exact absurd hdig (by decide)
  · rw [get_symbol_type_of_not_mem s hm, if_pos hdig]

/-- The symbol types produced for one raw split piece: a piece whose
lowercased, stripped form is empty yields no symbol; any other piece yields
one symbol whose type classifies that lowercased, stripped form. -/
theorem scanWord_map_type (names : List String) (loc : Nat) (w : String) :
    (Scanner.scanWord names loc w).2.map Symbol.type =
      (if pyStrip (pyLower w) = "" then []
       else [Scanner.get_symbol_type (pyStrip (pyLower w))]) := by
  by_cases hs : pyStrip (pyLower w) = "" <;> simp [Scanner.scanWord, hs]

/-- Claim C8: the scanner classifies tokens case-insensitively — every raw
token is first lowercased and stripped (first conjunct), the reserved words
map to their dedicated symbol types, the punctuation marks map to theirs, a
token solely of digits is NUMBER, a token stripping to empty (whitespace)
yields no symbol (first conjunct again), and any other token is a generic
NAME. -/
theorem claim8_classification :
    (∀ names loc w, (Scanner.scanWord names loc w).2.map Symbol.type =
        (if pyStrip (pyLower w) = "" then []
         else [Scanner.get_symbol_type (pyStrip (pyLower w))])) ∧
    (Scanner.get_symbol_type "clk" = Scanner.CLOCK ∧
     Scanner.get_symbol_type "sw" = Scanner.SWITCH ∧
     Scanner.get_symbol_type "and" = Scanner.AND ∧
     Scanner.get_symbol_type "or" = Scanner.OR ∧
     Scanner.get_symbol_type "nand" = Scanner.NAND ∧
     Scanner.get_symbol_type "nor" = Scanner.NOR ∧
     Scanner.get_symbol_type "dtype" = Scanner.DTYPE ∧
     Scanner.get_symbol_type "xor" = Scanner.XOR ∧
     Scanner.get_symbol_type "monitor" = Scanner.MONITOR ∧
     Scanner.get_symbol_type "sig" = Scanner.SIGGEN ∧
     Scanner.get_symbol_type "rc" = Scanner.RC) ∧
    (Scanner.get_symbol_type "." = Scanner.DOT ∧
     Scanner.get_symbol_type "," = Scanner.COMMA ∧
     Scanner.get_symbol_type "(" = Scanner.OPEN ∧
     Scanner.get_symbol_type ")" = Scanner.CLOSE ∧
     Scanner.get_symbol_type "=" = Scanner.EQUALS) ∧
    (∀ s, pyIsDigit s = true →
        Scanner.get_symbol_type s = Scanner.NUMBER) ∧
    (∀ s, s ∉ ruleStrings → pyIsDigit s = false →
        Scanner.get_symbol_type s = Scanner.NAME) :=
  ⟨scanWord_map_type,
   ⟨rfl, rfl, rfl, rfl, rfl, rfl, rfl, rfl, rfl, rfl, rfl⟩,
   ⟨rfl, rfl, rfl, rfl, rfl⟩,
   get_symbol_type_of_digit,
   get_symbol_type_eq_NAME⟩

/-- Claim C8, witness: the classification theorem applied to concrete
tokens — a mixed-case reserved word, an all-digit token, a whitespace run
and an ordinary name. -/
theorem claim8_classification_witness :
    (Scanner.scanWord [] 0 "ClK").2.map Symbol.type = [Scanner.CLOCK] ∧
    (Scanner.scanWord [] 0 "  ").2.map Symbol.type = [] ∧
    Scanner.get_symbol_type "123" = Scanner.NUMBER ∧
    Scanner.get_symbol_type "g1" = Scanner.NAME :=
  ⟨(claim8_classification.1 [] 0 "ClK").trans rfl,
   (claim8_classification.1 [] 0 "  ").trans rfl,
   claim8_classification.2.2.2.1 "123" rfl,
   claim8_classification.2.2.2.2 "g1" (by decide) rfl⟩

/-! ## Claim C9 -/

/-- The `for _ in range(number): line = next(f)` loop lands on line
`number` (1-indexed) when it exists. -/
theorem get_lineLoop_spec (ls : List String) :
    ∀ k prev, 1 ≤ k → k ≤ ls.length →
      Scanner.get_lineLoop k ls prev = .ok (ls.get? (k - 1)) := by
  induction ls with
  | nil =>
      intro k prev h1 h2
      exact absurd (h1.trans h2) (by decide)
  | cons l rest ih =>
      intro k prev h1 h2
      match k, h1 with
      | 1, _ => rfl
      | j + 2, _ =>
          show Scanner.get_lineLoop (j + 1) rest (some l) =
            .ok ((l :: rest).get? (j + 1))
          rw [ih (j + 1) (some l) (by omega)
            (by simp only [List.length_cons] at h2; omega)]
          rfl

/-- Claim C9 (amended): for `n` between 1 and the number of lines,
`get_line n` returns the text of line `n` (1-indexed) with leading and
trailing whitespace — including the terminating newline — stripped, not the
literal line text. -/
theorem claim9_get_line_stripped (content : String) (n : Nat)
    (h1 : 1 ≤ n) (h2 : n ≤ (pyLines content).length) :
    ∃ l, (pyLines content).get? (n - 1) = some l ∧
      Scanner.get_line content n = .ok (pyStrip l) := by
  cases hget : (pyLines content).get? (n - 1) with
  | none =>
      rw [List.get?_eq_none] at hget
      omega
  | some l =>
      refine ⟨l, rfl, ?_⟩
      show (Scanner.get_lineLoop n (pyLines content) none).bind _ = _
      rw [get_lineLoop_spec (pyLines content) n none h1 h2, hget]
      rfl

/-- Claim C9, witness: the amended theorem applied to a concrete two-line
file whose first line has leading whitespace. -/
theorem claim9_get_line_stripped_witness :
    ∃ l, (pyLines "  ab\nx\n").get? (1 - 1) = some l ∧
      Scanner.get_line "  ab\nx\n" 1 = .ok (pyStrip l) :=
  claim9_get_line_stripped "  ab\nx\n" 1 (by decide) (by decide)

/-- Claim C9, counterexample to the claim as stated: line 1 of the file
`"  ab\n"` reads literally `"  ab\n"`, but `get_line 1` returns `"ab"`,
which is not the literal text of the line with or without its newline. -/
theorem claim9_get_line_strips_cex :
    pyLines "  ab\n" = ["  ab\n"] ∧
    Scanner.get_line "  ab\n" 1 = .ok "ab" ∧
    ("ab" : String) ≠ "  ab\n" ∧ ("ab" : String) ≠ "  ab" :=
  ⟨rfl, rfl, by decide, by decide⟩

/-! ## Claim C10 -/

/-- The index found by `lookupIdx` points at the looked-up string. -/
theorem lookupIdx_get? (t : List String) (s : String) :
    ∀ i, lookupIdx t s = some i → t.get? i = some s := by
  induction t with
  | nil => intro i h; simp [lookupIdx] at h
  | cons a ts ih =>
      intro i h
      by_cases ha : a = s
      · simp [lookupIdx, ha] at h
        subst h
        simp [ha]
      · simp only [lookupIdx, if_neg ha] at h
        rcases Option.map_eq_some'.mp h with ⟨j, hj, rfl⟩
        simpa using ih j hj

/-- Appending a string to a list leaves it reachable at the old length. -/
theorem get?_concat_self (t : List String) (s : String) :
    (t ++ [s]).get? t.length = some s := by
  induction t with
  | nil => rfl
  | cons a ts ih => simp only [List.cons_append, List.length_cons, List.get?_cons_succ, ih]

/-- An index valid in a table stays valid, with the same string, after the
table grows on the right. -/
theorem get?_append_left {t : List String} {i : Nat} {s : String}
    (h : t.get? i = some s) (ext : List String) :
    (t ++ ext).get? i = some s := by
  induction t generalizing i with
  | nil => simp [List.get?] at h
  | cons a ts ih =>
      cases i with
      | zero => simpa using h
      | succ j =>
          simp only [List.cons_append, List.get?_cons_succ] at h ⊢
          exact ih h

/-- Interning only appends to the name table. -/
theorem lookupOne_extends (t : List String) (s : String) :
    ∃ ext, (Names.lookupOne t s).1 = t ++ ext := by
  unfold Names.lookupOne
  cases h : lookupIdx t s with
  | some i => exact ⟨[], by simp⟩
  | none => exact ⟨[s], rfl⟩

/-- The ID `lookupOne` returns points at the interned string in the
resulting table. -/
theorem lookupOne_get? (t : List String) (s : String) :
    ((Names.lookupOne t s).1).get? (Names.lookupOne t s).2 = some s := by
  unfold Names.lookupOne
  cases h : lookupIdx t s with
  | some i => simp only []; exact lookupIdx_get? t s i h
  | none => simp only []; exact get?_concat_self t s

/-- `goodSym` is preserved when the table grows on the right. -/
theorem goodSym_append {t : List String} {sym : Symbol} (ext : List String)
    (h : goodSym t sym) : goodSym (t ++ ext) sym := by
  refine ⟨h.1, fun i hi => ?_⟩
  obtain ⟨s, hs, hg, ht⟩ := h.2 i hi
  exact ⟨s, hs, get?_append_left hg ext, ht⟩

/-- For a nonempty word, `get_symbol_type` never returns the EOL code:
EOL symbols arise only from the end-of-line yield. -/
theorem get_symbol_type_ne_EOL (s : String) (hs : s ≠ "") :
    Scanner.get_symbol_type s ≠ Scanner.EOL := by
  by_cases hm : s ∈ ruleStrings
  · fin_cases hm <;> first | decide | (exact absurd rfl hs)
  · rw [get_symbol_type_of_not_mem s hm]
    cases hpd : pyIsDigit s <;> decide

/-- One scanned word only appends to the table, and its symbol (when there
is one) satisfies the interning invariant against the updated table. -/
theorem scanWord_good (names : List String) (loc : Nat) (w : String) :
    (∃ ext, (Scanner.scanWord names loc w).1 = names ++ ext) ∧
    ∀ sym ∈ (Scanner.scanWord names loc w).2,
      goodSym (Scanner.scanWord names loc w).1 sym := by
  by_cases hs : pyStrip (pyLower w) = ""
  · refine ⟨⟨[], by simp [Scanner.scanWord, hs]⟩, ?_⟩
    intro sym h
    simp [Scanner.scanWord, hs] at h
  · have hfst : (Scanner.scanWord names loc w).1 =
        (Names.lookupOne names (pyStrip (pyLower w))).1 := by
      simp [Scanner.scanWord, hs]
    constructor
    · obtain ⟨ext, hext⟩ := lookupOne_extends names (pyStrip (pyLower w))
      exact ⟨ext, hfst.trans hext⟩
    · intro sym h
      simp [Scanner.scanWord, hs] at h
      subst h
      constructor
      · simp only [Option.some_ne_none, false_iff, not_or]
        exact ⟨get_symbol_type_ne_EOL _ hs, get_symbol_type_ne_EOF _⟩
      · intro i hi
        simp only [Option.some.injEq] at hi
        subst hi
        refine ⟨pyStrip (pyLower w), hs, ?_, rfl⟩
        rw [hfst]
        exact lookupOne_get? names _

/-- One scanned line only appends to the table, and all its symbols satisfy
the interning invariant against the updated table. -/
theorem scanLine_good (names : List String) (loc : Nat) (ws : List String) :
    (∃ ext, (Scanner.scanLine names loc ws).1 = names ++ ext) ∧
    ∀ sym ∈ (Scanner.scanLine names loc ws).2,
      goodSym (Scanner.scanLine names loc ws).1 sym := by
  induction ws generalizing names loc with
  | nil =>
      refine ⟨⟨[], by simp [Scanner.scanLine]⟩, ?_⟩
      intro sym h
      simp [Scanner.scanLine] at h
      subst h
      exact ⟨⟨fun _ => Or.inl rfl, fun _ => rfl⟩, fun i hi => nomatch hi⟩
  | cons w rest ih =>
      have hd1 : (Scanner.scanLine names loc (w :: rest)).1 =
          (Scanner.scanLine (Scanner.scanWord names loc w).1
            (loc + w.length) rest).1 := rfl
      have hd2 : (Scanner.scanLine names loc (w :: rest)).2 =
          (Scanner.scanWord names loc w).2 ++
            (Scanner.scanLine (Scanner.scanWord names loc w).1
              (loc + w.length) rest).2 := rfl
      obtain ⟨ext1, hext1⟩ := (scanWord_good names loc w).1
      obtain ⟨ext2, hext2⟩ := (ih (Scanner.scanWord names loc w).1 (loc + w.length)).1
      constructor
      · exact ⟨ext1 ++ ext2, by rw [hd1, hext2, hext1, List.append_assoc]⟩
      · intro sym h
        rw [hd2] at h
        rcases List.mem_append.mp h with h1 | h2
        · have hg := (scanWord_good names loc w).2 sym h1
          rw [hd1, hext2]
          exact goodSym_append ext2 hg
        · have hg := (ih (Scanner.scanWord names loc w).1 (loc + w.length)).2 sym h2
          rw [hd1]
          exact hg

/-- The whole scan only appends to the table, and every symbol of the
output satisfies the interning invariant against the final table. -/
theorem scanFile_good (names : List String) (ls : List String) :
    (∃ ext, (Scanner.scanFile names ls).1 = names ++ ext) ∧
    ∀ sym ∈ (Scanner.scanFile names ls).2,
      goodSym (Scanner.scanFile names ls).1 sym := by
  induction ls generalizing names with
  | nil =>
      refine ⟨⟨[], by simp [Scanner.scanFile]⟩, ?_⟩
      intro sym h
      simp [Scanner.scanFile] at h
      subst h
      exact ⟨⟨fun _ => Or.inr rfl, fun _ => rfl⟩, fun i hi => nomatch hi⟩
  | cons l rest ih =>
      have hd1 : (Scanner.scanFile names (l :: rest)).1 =
          (Scanner.scanFile (Scanner.scanLine names 0 (pySplit l)).1 rest).1 := rfl
      have hd2 : (Scanner.scanFile names (l :: rest)).2 =
          (Scanner.scanLine names 0 (pySplit l)).2 ++
            (Scanner.scanFile (Scanner.scanLine names 0 (pySplit l)).1 rest).2 := rfl
      obtain ⟨ext1, hext1⟩ := (scanLine_good names 0 (pySplit l)).1
      obtain ⟨ext2, hext2⟩ := (ih (Scanner.scanLine names 0 (pySplit l)).1).1
      constructor
      · exact ⟨ext1 ++ ext2, by rw [hd1, hext2, hext1, List.append_assoc]⟩
      · intro sym h
        rw [hd2] at h
        rcases List.mem_append.mp h with h1 | h2
        · have hg := (scanLine_good names 0 (pySplit l)).2 sym h1
          rw [hd1, hext2]
          exact goodSym_append ext2 hg
        · have hg := (ih (Scanner.scanLine names 0 (pySplit l)).1).2 sym h2
          rw [hd1]
          exact hg

/-- Claim C10: every symbol the scanner yields for a nonempty token —
punctuation, reserved words and numeric literals included — carries a name
ID interned through the name table's lookup for the lowercased, stripped
token text, and exactly the EOL and EOF symbols carry id `none`. -/
theorem claim10_symbol_id_interned (names : List String) (content : String) :
    ∀ sym ∈ (Scanner.scan names content).2,
      (sym.id = none ↔ (sym.type = Scanner.EOL ∨ sym.type = Scanner.EOF)) ∧
      (∀ i, sym.id = some i → ∃ s, s ≠ "" ∧
        (Scanner.scan names content).1.get? i = some s ∧
        sym.type = Scanner.get_symbol_type s) :=
  fun sym h => (scanFile_good names (pyLines content)).2 sym h

/-- Claim C10, witness: the invariant applied to the NAME symbol of the
one-line file `"a\n"`, whose id 0 points at the interned string `"a"`. -/
theorem claim10_symbol_id_interned_witness :
    (({ type := Scanner.NAME, id := some 0, loc := some 0 } : Symbol).id = none ↔
      (({ type := Scanner.NAME, id := some 0, loc := some 0 } : Symbol).type = Scanner.EOL ∨
       ({ type := Scanner.NAME, id := some 0, loc := some 0 } : Symbol).type = Scanner.EOF)) ∧
    (∀ i, ({ type := Scanner.NAME, id := some 0, loc := some 0 } : Symbol).id = some i →
      ∃ s, s ≠ "" ∧ (Scanner.scan [] "a\n").1.get? i = some s ∧
        ({ type := Scanner.NAME, id := some 0, loc := some 0 } : Symbol).type =
          Scanner.get_symbol_type s) :=
  claim10_symbol_id_interned [] "a\n"
    { type := Scanner.NAME, id := some 0, loc := some 0 } (by decide)

end GF2
